import Mathlib

/-!
Shallow embedding of the trial-sequencing and response-scoring engine of the
musical-ear-test repository (src/musical_ear.py; src/musical_ear_psd.py is a
near-duplicate variant of the same engine).

External effects are modelled as explicit inputs:
keyboard polling as streams of optional keys, wall-clock readings as
natural-number second counts, the directory listing as a list of file names
in the order the operating system presents them, and the file system as a
map from file names to lists of lines.
-/

set_option autoImplicit false

namespace MusicalEar

/-! ### Response collection (play_stimulus_and_display_prompt, lines 228-259) -/

/-- The two designated response keys accepted by event.getKeys in
play_stimulus_and_display_prompt: the keyList holds exactly the keys y and n. -/
inductive Key where
  | y
  | n
deriving DecidableEq, Repr

/-- The translation step after the poll loop (lines 247-253): key y becomes
yes, key n becomes no, and an absent response becomes NA. -/
def translate : Option Key → String
  | some Key.y => "yes"
  | some Key.n => "no"
  | none => "NA"

/-- The bounded poll loop (lines 228-245) with a positive time limit: the
window is the sequence of getKeys results for the successive iterations in
which the countdown timer is still positive; the loop breaks at the first
iteration whose poll yields a qualifying key, and falls out of the loop with
no response when the window is exhausted. -/
def first_key : List (Option Key) → Option Key
  | [] => none
  | some k :: _ => some k
  | none :: rest => first_key rest

/-- Scored-phase response collection: the bounded poll loop followed by the
translation step. -/
def collect_scored (window : List (Option Key)) : String :=
  translate (first_key window)

/-- Practice-phase response collection (time_limit is None, lines 230-245):
the while condition is then always true, so the loop can exit only through
the break on a qualifying key. The argument h is the termination evidence
that some poll eventually yields a key; the loop returns at the first such
poll, and the translation step is applied to the key observed there. -/
def collect_practice (polls : Nat → Option Key) (h : ∃ i, (polls i).isSome) : String :=
  translate (polls (Nat.find h))

/-! ### Python string primitives

The engine reads ground truth and catalog positions out of file names with
str.split, str.startswith and the in operator. These are modelled over
character lists with structural recursion (the fuel argument of the split
worker equals the length of the input, which the recursion never exhausts),
so that all of them evaluate inside the kernel. -/

/-- Worker for str.split: scan the input, emitting the accumulated piece
and skipping the separator at each occurrence. The fuel argument is the
length of the unscanned input. -/
def py_split_go (sep : List Char) : Nat → List Char → List Char → List (List Char)
  | _, acc, [] => [acc.reverse]
  | 0, acc, _ :: _ => [acc.reverse]
  | fuel + 1, acc, c :: rest =>
      if sep.isPrefixOf (c :: rest) then
        acc.reverse :: py_split_go sep fuel [] (List.drop sep.length (c :: rest))
      else
        py_split_go sep fuel (c :: acc) rest

/-- Python s.split(sep) for a nonempty separator: non-overlapping leftmost
occurrences, keeping empty pieces, one more piece than occurrences. -/
def py_split (s sep : String) : List String :=
  (py_split_go sep.toList s.toList.length [] s.toList).map List.asString

/-- Python s.startswith(pre). -/
def py_startswith (s pre : String) : Bool :=
  pre.toList.isPrefixOf s.toList

/-- The Python in operator on strings: sep occurs inside s exactly when
splitting s on sep yields at least two parts. -/
def contains_sub (s sep : String) : Bool :=
  decide (2 ≤ (py_split s sep).length)

/-! ### Scoring (musical_ear.py lines 366-367 and 414-415) -/

/-- The ground-truth derivation (lines 366 and 414): the correct answer is
yes when the last underscore-separated segment of the stimulus identifier
starts with ident, and no otherwise. -/
def correct_answer (file : String) : String :=
  if py_startswith ((py_split file "_").getLastD "") "ident" then "yes" else "no"

/-- The scoring expression (lines 367 and 415): 1 when the response equals
the correct answer; otherwise 99 when the response is NA; otherwise 0. The
equality test comes first in the source expression. -/
def accuracy (response correct_answer : String) : Nat :=
  if response = correct_answer then 1 else if response = "NA" then 99 else 0

/-! ### Clock formatting (lines 345-347, 370-375, 418-423) -/

/-- Zero-padded two-digit rendering, as the Python format 02d: minimum width
two with zero fill, wider numbers rendered in full. -/
def pad2 (n : Nat) : String :=
  if n < 10 then "0" ++ toString n else toString n

/-- The elapsed-duration rendering (lines 372-375): divmod of the duration
by 3600, then divmod of the remainder by 60, each piece zero-padded to two
digits. Durations are modelled in whole seconds, matching the int
truncation applied before formatting. -/
def duration_str (duration : Nat) : String :=
  pad2 (duration / 3600) ++ ":" ++ pad2 (duration % 3600 / 60) ++ ":" ++
    pad2 (duration % 3600 % 60)

/-- strftime of hours, minutes and seconds applied to an absolute timestamp
(lines 347, 371, 419), with timestamps modelled in whole seconds since an
epoch midnight. -/
def clock_str (t : Nat) : String :=
  pad2 (t / 3600 % 24) ++ ":" ++ pad2 (t % 3600 / 60) ++ ":" ++ pad2 (t % 3600 % 60)

/-! ### Trial records and the runner (musical_ear_test, lines 294-440) -/

/-- One entry of the results list built by musical_ear_test (lines 378-389
and 426-437). The field named correct stores the string correct_answer,
exactly as the source dictionary does. -/
structure TrialResult where
  trial : Nat
  type : String
  phase : String
  stimulus : String
  response : String
  correct : String
  accuracy : Nat
  start_time : String
  end_time : String
  duration : String
deriving DecidableEq, Repr

/-- Participant metadata attached to every serialized line (lines 49-53). -/
structure ParticipantInfo where
  experiment : String
  subject_ID : String
  cur_date : String
deriving DecidableEq, Repr

/-- The record built for practice trial of 0-based loop index i in the
practice loop (lines 353-390): the response and the end-time clock reading
come from the environment, start_time is the single sub-test start captured
at line 346. -/
def practice_trial_result (test_type : String) (start_time : Nat) (i : Nat)
    (file response : String) (end_time : Nat) : TrialResult :=
  { trial := i + 1
    type := test_type
    phase := "practice"
    stimulus := file
    response := response
    correct := correct_answer file
    accuracy := accuracy response (correct_answer file)
    start_time := clock_str start_time
    end_time := clock_str end_time
    duration := duration_str (end_time - start_time) }

/-- The record built for scored trial of 0-based loop index i in the test
loop (lines 402-438). -/
def test_trial_result (test_type : String) (start_time : Nat) (i : Nat)
    (file response : String) (end_time : Nat) : TrialResult :=
  { trial := i + 1
    type := test_type
    phase := "test"
    stimulus := file
    response := response
    correct := correct_answer file
    accuracy := accuracy response (correct_answer file)
    start_time := clock_str start_time
    end_time := clock_str end_time
    duration := duration_str (end_time - start_time) }

/-- The enumerate-style for loop: map with the 0-based loop index, starting
from i. -/
def map_with_index {α β : Type} (f : Nat → α → β) : Nat → List α → List β
  | _, [] => []
  | i, x :: rest => f i x :: map_with_index f (i + 1) rest

/-- The results list returned by musical_ear_test (lines 311-440): the
practice loop over example_files followed by the scored loop over
test_files. The environment is explicit: start_time is the clock reading at
line 346, practice_response i and test_response i are what
play_stimulus_and_display_prompt returns on the respective trial, and
practice_end i, test_end i are the clock readings taken right after the
response (lines 370 and 418). -/
def musical_ear_test (test_type : String) (example_files test_files : List String)
    (start_time : Nat) (practice_response test_response : Nat → String)
    (practice_end test_end : Nat → Nat) : List TrialResult :=
  map_with_index
      (fun i f => practice_trial_result test_type start_time i f
        (practice_response i) (practice_end i)) 0 example_files
    ++ map_with_index
      (fun i f => test_trial_result test_type start_time i f
        (test_response i) (test_end i)) 0 test_files

/-! ### Result sink (append_result_to_csv, lines 320-343) -/

/-- The serialized line written by append_result_to_csv (lines 341-343). -/
def result_line (participant_info : ParticipantInfo) (result : TrialResult) : String :=
  participant_info.experiment ++ "," ++ participant_info.subject_ID ++ "," ++
    participant_info.cur_date ++ "," ++ toString result.trial ++ "," ++
    result.type ++ "," ++ result.phase ++ "," ++ result.stimulus ++ "," ++
    result.response ++ "," ++ result.correct ++ "," ++ toString result.accuracy ++
    "," ++ result.start_time ++ "," ++ result.end_time ++ "," ++ result.duration

/-- append_result_to_csv (lines 320-343): pick the destination file by the
phase of the record and append one line to it. The with-block of the source
(open in append mode, one write, close on scope exit) is modelled as a
single atomic update of the file-system map. -/
def append_result_to_csv (result : TrialResult) (practice_filename test_filename : String)
    (participant_info : ParticipantInfo) (fs : String → List String) :
    String → List String :=
  let output_filename := if result.phase = "practice" then practice_filename else test_filename
  fun f => if f = output_filename then fs f ++ [result_line participant_info result] else fs f

/-! ### Catalog construction (load_audio_files, lines 64-95) -/

/-- Python list.insert at the nonnegative positions that arise from the
1-based trial numbers of the file-naming convention: insert before position
i, appending at the end when i is at least the length. -/
def pyInsert {α : Type} (xs : List α) (i : Nat) (x : α) : List α :=
  xs.take i ++ x :: xs.drop i

/-- A run of decimal digits read as a number. -/
def digits_to_nat (ds : List Char) : Nat :=
  ds.foldl (fun n c => n * 10 + (c.toNat - 48)) 0

/-- re.findall of digit runs followed by taking the first hit as an int:
the first maximal run of decimal digits of the string, if any. -/
def first_number (s : String) : Option Nat :=
  match s.toList.dropWhile (fun c => !c.isDigit) with
  | [] => none
  | ds => some (digits_to_nat (ds.takeWhile Char.isDigit))

/-- load_audio_files (lines 64-95): fold over the directory listing in the
order the operating system presents it. A file of the matching test type is
appended to the example list when its name carries the example marker, and
otherwise, when it carries the test marker, inserted into the test list via
list.insert at position trial_number - 1, the trial number being the first
digit run after the test marker. Trial numbers of the naming convention are
1-based. -/
def load_audio_files (base_audio_path test_type : String) (listing : List String) :
    List String × List String :=
  listing.foldl
    (fun acc filename =>
      if py_startswith filename test_type then
        let file_path := base_audio_path ++ "/" ++ filename
        if contains_sub filename "_example" then
          (acc.1 ++ [file_path], acc.2)
        else if contains_sub filename "_test" then
          let trial_number := (first_number ((py_split filename "_test").getD 1 "")).getD 0
          (acc.1, pyInsert acc.2 (trial_number - 1) file_path)
        else acc
      else acc)
    ([], [])

/-! ### Display effects of one sub-test (lines 350, 392-396, 399) -/

/-- The Display effects issued by musical_ear_test that a participant sees
between stimuli: instruction screens, keyed by the dictionary key used at
the call site, and the practice feedback screen carrying a correctness
boolean. -/
inductive DisplayEvent where
  | instruct (key : String)
  | feedback (ok : Bool)
deriving DecidableEq, Repr

/-- The display events of the practice loop (lines 353-396): after each
practice trial, feedback on response == correct_answer (line 393), then the
debrief instruction keyed by test_type and correct_answer (line 396). -/
def practice_display (test_type : String) (practice_response : Nat → String) :
    Nat → List String → List DisplayEvent
  | _, [] => []
  | i, file :: rest =>
      DisplayEvent.feedback (decide (practice_response i = correct_answer file)) ::
      DisplayEvent.instruct (test_type ++ "_practice_" ++ correct_answer file) ::
      practice_display test_type practice_response (i + 1) rest

/-- All instruction and feedback events of one sub-test run: the part1
instruction (line 350), the practice loop events, and the part2 instruction
(line 399); the scored loop issues no instruction or feedback events. -/
def musical_ear_test_display (test_type : String) (example_files : List String)
    (practice_response : Nat → String) : List DisplayEvent :=
  DisplayEvent.instruct (test_type ++ "_part1") ::
    (practice_display test_type practice_response 0 example_files ++
      [DisplayEvent.instruct (test_type ++ "_part2")])

/-- The instruction keys of a display trace, in order. -/
def instruct_keys : List DisplayEvent → List String
  | [] => []
  | DisplayEvent.instruct k :: rest => k :: instruct_keys rest
  | DisplayEvent.feedback _ :: rest => instruct_keys rest

/-! ### Basic lemmas about the embedding -/

theorem map_with_index_length {α β : Type} (f : Nat → α → β) :
    ∀ (i : Nat) (xs : List α), (map_with_index f i xs).length = xs.length
  | _, [] => rfl
  | i, _ :: rest => by
      simp [map_with_index, map_with_index_length f (i + 1) rest]

theorem map_with_index_getElem? {α β : Type} (f : Nat → α → β) :
    ∀ (i j : Nat) (xs : List α), (map_with_index f i xs)[j]? = xs[j]?.map (f (i + j))
  | _, _, [] => by simp [map_with_index]
  | _, 0, _ :: _ => by simp [map_with_index]
  | i, j + 1, x :: rest => by
      have h : i + (j + 1) = i + 1 + j := by omega
      rw [h]
      simpa [map_with_index] using map_with_index_getElem? f (i + 1) j rest

theorem mem_map_with_index {α β : Type} (f : Nat → α → β) :
    ∀ (i : Nat) (xs : List α) (r : β),
      r ∈ map_with_index f i xs → ∃ j x, x ∈ xs ∧ r = f j x
  | _, [], _, h => by simp [map_with_index] at h
  | i, x :: rest, r, h => by
      rcases List.mem_cons.mp (by simpa [map_with_index] using h) with h1 | h2
      · exact ⟨i, x, List.mem_cons_self x rest, h1⟩
      · obtain ⟨j, y, hy, hr⟩ := mem_map_with_index f (i + 1) rest r h2
        exact ⟨j, y, List.mem_cons_of_mem x hy, hr⟩

/-- Every record of a run is a practice record of some example file or a
scored record of some test file. -/
theorem mem_musical_ear_test {tt : String} {ex ts : List String} {st : Nat}
    {pr tr : Nat → String} {pe te : Nat → Nat} {r : TrialResult}
    (h : r ∈ musical_ear_test tt ex ts st pr tr pe te) :
    (∃ j x, x ∈ ex ∧ r = practice_trial_result tt st j x (pr j) (pe j)) ∨
    (∃ j x, x ∈ ts ∧ r = test_trial_result tt st j x (tr j) (te j)) := by
  unfold musical_ear_test at h
  rcases List.mem_append.mp h with h | h
  · exact Or.inl (mem_map_with_index _ _ _ _ h)
  · exact Or.inr (mem_map_with_index _ _ _ _ h)

/-- Fields every record of a run satisfies: the field named correct holds
the ground truth derived from the record's own stimulus, the accuracy code
is the scoring expression applied to the record's own response and ground
truth, and start_time is the single sub-test start. -/
theorem run_record_spec {tt : String} {ex ts : List String} {st : Nat}
    {pr tr : Nat → String} {pe te : Nat → Nat} {r : TrialResult}
    (h : r ∈ musical_ear_test tt ex ts st pr tr pe te) :
    r.correct = correct_answer r.stimulus ∧
      r.accuracy = accuracy r.response r.correct ∧
      r.start_time = clock_str st := by
  rcases mem_musical_ear_test h with ⟨j, x, -, rfl⟩ | ⟨j, x, -, rfl⟩ <;>
    exact ⟨rfl, rfl, rfl⟩

/-- The record at position i of a run, for i inside the practice block. -/
theorem run_getElem?_practice (tt : String) (ex ts : List String) (st : Nat)
    (pr tr : Nat → String) (pe te : Nat → Nat) (i : Nat) (hi : i < ex.length) :
    (musical_ear_test tt ex ts st pr tr pe te)[i]? =
      some (practice_trial_result tt st i ex[i] (pr i) (pe i)) := by
  unfold musical_ear_test
  rw [List.getElem?_append_left (by rw [map_with_index_length]; exact hi),
    map_with_index_getElem?, List.getElem?_eq_getElem hi]
  simp

/-- The record at position length of examples + i of a run, for i inside
the scored block. -/
theorem run_getElem?_test (tt : String) (ex ts : List String) (st : Nat)
    (pr tr : Nat → String) (pe te : Nat → Nat) (i : Nat) (hi : i < ts.length) :
    (musical_ear_test tt ex ts st pr tr pe te)[ex.length + i]? =
      some (test_trial_result tt st i ts[i] (tr i) (te i)) := by
  unfold musical_ear_test
  rw [List.getElem?_append_right (by rw [map_with_index_length]; omega)]
  rw [map_with_index_length]
  have h : ex.length + i - ex.length = i := by omega
  rw [h, map_with_index_getElem?, List.getElem?_eq_getElem hi]
  simp

/-- The ground-truth label is always yes or no. -/
theorem correct_answer_cases (file : String) :
    correct_answer file = "yes" ∨ correct_answer file = "no" := by
  unfold correct_answer
  split <;> simp

/-- The ground-truth label is yes exactly when the last underscore-separated
segment of the identifier starts with ident. -/
theorem correct_answer_yes_iff (file : String) :
    correct_answer file = "yes" ↔
      py_startswith ((py_split file "_").getLastD "") "ident" = true := by
  unfold correct_answer
  split <;> simp_all

/-- The scoring expression: value set and both biconditionals, valid as
soon as the ground-truth argument is not the no-response value. -/
theorem accuracy_spec (resp ca : String) (hca : ca ≠ "NA") :
    (accuracy resp ca = 0 ∨ accuracy resp ca = 1 ∨ accuracy resp ca = 99) ∧
      (accuracy resp ca = 1 ↔ resp = ca) ∧
      (accuracy resp ca = 99 ↔ resp = "NA") := by
  unfold accuracy
  split_ifs with h1 h2 <;> simp_all

/-- The translation step yields NA exactly on an absent key. -/
theorem translate_eq_NA_iff (o : Option Key) : translate o = "NA" ↔ o = none := by
  cases o with
  | none => simp [translate]
  | some k => cases k <;> simp [translate]

/-- The bounded poll loop finds no key exactly when every poll of the
window is empty. -/
theorem first_key_eq_none_iff :
    ∀ w : List (Option Key), first_key w = none ↔ ∀ p ∈ w, p = none
  | [] => by simp [first_key]
  | some k :: rest => by simp [first_key]
  | none :: rest => by simp [first_key, first_key_eq_none_iff rest]

/-- The bounded poll loop returns the first key of the window and ignores
everything after it. -/
theorem first_key_append :
    ∀ (pre : List (Option Key)) (k : Key) (rest : List (Option Key)),
      (∀ p ∈ pre, p = none) → first_key (pre ++ some k :: rest) = some k
  | [], _, _, _ => rfl
  | p :: pre, k, rest, h => by
      have hp : p = none := h p (List.mem_cons_self p pre)
      subst hp
      simpa [first_key] using
        first_key_append pre k rest (fun q hq => h q (List.mem_cons_of_mem _ hq))

/-- instruct_keys distributes over concatenation of traces. -/
theorem instruct_keys_append :
    ∀ a b : List DisplayEvent, instruct_keys (a ++ b) = instruct_keys a ++ instruct_keys b
  | [], _ => rfl
  | DisplayEvent.instruct k :: rest, b => by
      simp [instruct_keys, instruct_keys_append rest b]
  | DisplayEvent.feedback _ :: rest, b => by
      simp [instruct_keys, instruct_keys_append rest b]

/-- The instruction keys of the practice loop: one debrief key per example
file, keyed by the test type and the ground truth of the file, in catalog
order; the feedback events contribute no keys. -/
theorem instruct_keys_practice_display (tt : String) (resp : Nat → String) :
    ∀ (i : Nat) (files : List String),
      instruct_keys (practice_display tt resp i files) =
        files.map (fun f => tt ++ "_practice_" ++ correct_answer f)
  | _, [] => rfl
  | i, f :: rest => by
      simp [practice_display, instruct_keys,
        instruct_keys_practice_display tt resp (i + 1) rest]

/-! ### Claim C1 -/

/-- Claim C1, counterexample. The source scoring expression tests the
equality first: accuracy is 1 if response equals correct_answer, else 99 if
response is NA, else 0. So in the degenerate case in which the ground-truth
argument were the no-response value, a no-response answer is scored 1
(correct), not 99: the none case does not take precedence over the equality
check. -/
theorem c1_counterexample : accuracy "NA" "NA" = 1 ∧ accuracy "NA" "NA" ≠ 99 := by
  decide

/-- Claim C1 (amended): for every trial record of a run, the accuracy code
is one of 0, 1, 99; it is 1 exactly when the response equals the recorded
ground truth and 99 exactly when the response is the no-response value NA.
This holds because the ground truth of a trial is always yes or no, never
NA; the equality check of the source takes precedence, not the none
check. -/
theorem c1_accuracy_code (tt : String) (ex ts : List String) (st : Nat)
    (pr tr : Nat → String) (pe te : Nat → Nat) (r : TrialResult)
    (h : r ∈ musical_ear_test tt ex ts st pr tr pe te) :
    (r.accuracy = 0 ∨ r.accuracy = 1 ∨ r.accuracy = 99) ∧
      (r.accuracy = 1 ↔ r.response = r.correct) ∧
      (r.accuracy = 99 ↔ r.response = "NA") := by
  obtain ⟨hc, ha, -⟩ := run_record_spec h
  have hnn : r.correct ≠ "NA" := by
    rcases correct_answer_cases r.stimulus with h1 | h1 <;> rw [hc, h1] <;> decide
  rw [ha]
  exact accuracy_spec r.response r.correct hnn

/-- Witness for C1 at a concrete run: one practice trial answered yes on an
identical item, one scored trial left unanswered. -/
theorem c1_witness :
    let r := practice_trial_result "rhythm" 100 0 "audio/rhythm_example1_identical.wav" "yes" 130
    (r.accuracy = 0 ∨ r.accuracy = 1 ∨ r.accuracy = 99) ∧
      (r.accuracy = 1 ↔ r.response = r.correct) ∧
      (r.accuracy = 99 ↔ r.response = "NA") :=
  c1_accuracy_code "rhythm" ["audio/rhythm_example1_identical.wav"]
    ["audio/rhythm_test01_different.wav"] 100 (fun _ => "yes") (fun _ => "NA")
    (fun _ => 130) (fun _ => 190)
    (practice_trial_result "rhythm" 100 0 "audio/rhythm_example1_identical.wav" "yes" 130)
    (by decide)

/-! ### Claim C2 -/

/-- Claim C2: the ground truth recorded for every trial is yes exactly when
the last underscore-separated segment of the trial's stimulus identifier
starts with ident, and no otherwise; and it is a pure, order-independent
function of the identifier alone: any two trial records of any two runs
that carry the same stimulus identifier carry the same ground truth. -/
theorem c2_ground_truth :
    (∀ (tt : String) (ex ts : List String) (st : Nat) (pr tr : Nat → String)
        (pe te : Nat → Nat) (r : TrialResult),
      r ∈ musical_ear_test tt ex ts st pr tr pe te →
        (r.correct = "yes" ↔
          py_startswith ((py_split r.stimulus "_").getLastD "") "ident" = true) ∧
        (r.correct = "yes" ∨ r.correct = "no")) ∧
    (∀ (tt : String) (ex ts : List String) (st : Nat) (pr tr : Nat → String)
        (pe te : Nat → Nat)
        (tt2 : String) (ex2 ts2 : List String) (st2 : Nat) (pr2 tr2 : Nat → String)
        (pe2 te2 : Nat → Nat) (r r2 : TrialResult),
      r ∈ musical_ear_test tt ex ts st pr tr pe te →
      r2 ∈ musical_ear_test tt2 ex2 ts2 st2 pr2 tr2 pe2 te2 →
      r.stimulus = r2.stimulus → r.correct = r2.correct) := by
  constructor
  · intro tt ex ts st pr tr pe te r h
    obtain ⟨hc, -, -⟩ := run_record_spec h
    rw [hc]
    exact ⟨correct_answer_yes_iff r.stimulus, correct_answer_cases r.stimulus⟩
  · intro tt ex ts st pr tr pe te tt2 ex2 ts2 st2 pr2 tr2 pe2 te2 r r2 h h2 hs
    obtain ⟨hc, -, -⟩ := run_record_spec h
    obtain ⟨hc2, -, -⟩ := run_record_spec h2
    rw [hc, hc2, hs]

/-- Witness for C2 at two concrete runs sharing one stimulus identifier in
different positions and phases. -/
theorem c2_witness :
    let r := practice_trial_result "melody" 0 0 "audio/melody_example1_identical.wav" "yes" 10
    let r2 := test_trial_result "melody" 50 1 "audio/melody_example1_identical.wav" "NA" 80
    ((r.correct = "yes" ↔
        py_startswith ((py_split r.stimulus "_").getLastD "") "ident" = true) ∧
      (r.correct = "yes" ∨ r.correct = "no")) ∧
    r.correct = r2.correct :=
  ⟨c2_ground_truth.1 "melody" ["audio/melody_example1_identical.wav"] [] 0
      (fun _ => "yes") (fun _ => "yes") (fun _ => 10) (fun _ => 10)
      (practice_trial_result "melody" 0 0 "audio/melody_example1_identical.wav" "yes" 10)
      (by decide),
    c2_ground_truth.2 "melody" ["audio/melody_example1_identical.wav"] [] 0
      (fun _ => "yes") (fun _ => "yes") (fun _ => 10) (fun _ => 10)
      "melody" [] ["audio/melody_test01_different.wav", "audio/melody_example1_identical.wav"]
      50 (fun _ => "NA") (fun _ => "NA") (fun _ => 80) (fun _ => 80)
      (practice_trial_result "melody" 0 0 "audio/melody_example1_identical.wav" "yes" 10)
      (test_trial_result "melody" 50 1 "audio/melody_example1_identical.wav" "NA" 80)
      (by decide) (by decide) rfl⟩

/-! ### Claim C3 -/

/-- Claim C3 is contradicted by the code: here is a catalog of three test
files with distinct contiguous 1-based ordinals 1, 2, 3, presented by the
directory listing in the order 3, 2, 1. Construction by list.insert at
position ordinal - 1 yields the catalog in ordinal order 1, 3, 2 (inserting
ordinal 2 at position 1 of the one-element list that then holds only
ordinal 3 puts 2 after 3), not in strictly increasing ordinal order. -/
theorem c3_failing_input :
    (load_audio_files "audio" "melody"
        ["melody_test3_different.wav", "melody_test2_different.wav",
          "melody_test1_identical.wav"]).2 =
      ["audio/melody_test1_identical.wav", "audio/melody_test3_different.wav",
        "audio/melody_test2_different.wav"] := by
  decide

/-! ### Claim C4 -/

/-- Claim C4: with no time limit, the collector can only return at a poll
that yields one of the two designated keys, translates that first key to
its label, and never returns NA; with a positive time limit, the collector
returns NA exactly when every poll of the window is empty, and the first
qualifying key ends the window immediately, whatever follows it. -/
theorem c4_response_window :
    (∀ (polls : Nat → Option Key) (h : ∃ i, (polls i).isSome),
      (∃ k : Key, polls (Nat.find h) = some k ∧
          collect_practice polls h = translate (some k) ∧
          ∀ j, j < Nat.find h → polls j = none) ∧
        collect_practice polls h ≠ "NA" ∧
        (collect_practice polls h = "yes" ∨ collect_practice polls h = "no")) ∧
    (∀ window : List (Option Key),
      (collect_scored window = "NA" ↔ ∀ p ∈ window, p = none)) ∧
    (∀ (pre : List (Option Key)) (k : Key) (rest : List (Option Key)),
      (∀ p ∈ pre, p = none) →
        collect_scored (pre ++ some k :: rest) = translate (some k)) := by
  refine ⟨?_, ?_, ?_⟩
  · intro polls h
    obtain ⟨k, hk⟩ := Option.isSome_iff_exists.mp (Nat.find_spec h)
    have hcp : collect_practice polls h = translate (some k) := by
      unfold collect_practice
      rw [hk]
    refine ⟨⟨k, hk, hcp, ?_⟩, ?_, ?_⟩
    · intro j hj
      exact Option.not_isSome_iff_eq_none.mp (Nat.find_min h hj)
    · rw [hcp]
      cases k <;> decide
    · rw [hcp]
      cases k
      · exact Or.inl rfl
      · exact Or.inr rfl
  · intro window
    unfold collect_scored
    rw [translate_eq_NA_iff]
    exact first_key_eq_none_iff window
  · intro pre k rest h
    unfold collect_scored
    rw [first_key_append pre k rest h]

/-- A concrete poll stream for the C4 witness: the designated key n arrives
at the second poll. -/
def c4_polls : Nat → Option Key := fun i => if i = 0 then none else some Key.n

/-- The C4 witness poll stream eventually yields a key. -/
theorem c4_polls_ex : ∃ i, (c4_polls i).isSome := ⟨1, rfl⟩

/-- Witness for C4 at concrete poll streams and windows. -/
theorem c4_witness :
    ((∃ k : Key, c4_polls (Nat.find c4_polls_ex) = some k ∧
        collect_practice c4_polls c4_polls_ex = translate (some k) ∧
        ∀ j, j < Nat.find c4_polls_ex → c4_polls j = none) ∧
      collect_practice c4_polls c4_polls_ex ≠ "NA" ∧
      (collect_practice c4_polls c4_polls_ex = "yes" ∨
        collect_practice c4_polls c4_polls_ex = "no")) ∧
    (collect_scored [none, none] = "NA" ↔
      ∀ p ∈ ([none, none] : List (Option Key)), p = none) ∧
    collect_scored ([none] ++ some Key.y :: [none]) = translate (some Key.y) :=
  ⟨c4_response_window.1 c4_polls c4_polls_ex,
    c4_response_window.2.1 [none, none],
    c4_response_window.2.2 [none] Key.y [none] (by simp)⟩

/-! ### Claim C5 -/

/-- A concrete run for C5: one practice trial ending at second 30 and one
scored trial ending at second 90, sub-test start at second 0. The second
trial's response window can only open after the first trial closes at
00:00:30. -/
def c5_run : List TrialResult :=
  musical_ear_test "melody" ["audio/melody_example1_identical.wav"]
    ["audio/melody_test01_different.wav"] 0 (fun _ => "yes") (fun _ => "no")
    (fun _ => 30) (fun _ => 90)

/-- Claim C5, counterexample: in the concrete run, the first trial ends at
00:00:30, so the second trial's response window opens at or after that
instant; yet the start_time recorded on the second trial's record is
00:00:00, identical to the first trial's, because the source captures
start_time once per sub-test (line 346) before any trial and stores that
shared value on every record. The recorded start_time therefore does not
bound the trial's own response-capture step and is shared across trials. -/
theorem c5_counterexample :
    c5_run[0]?.map TrialResult.end_time = some "00:00:30" ∧
      c5_run[0]?.map TrialResult.start_time = some "00:00:00" ∧
      c5_run[1]?.map TrialResult.start_time = some "00:00:00" := by
  decide

/-- Claim C5 (amended): end_time is an absolute timestamp captured per
trial right after that trial's response step, but start_time is the single
sub-test start instant, captured once before the first trial and shared by
every record of the sub-test. -/
theorem c5_amended_timestamps :
    (∀ (tt : String) (ex ts : List String) (st : Nat) (pr tr : Nat → String)
        (pe te : Nat → Nat) (r : TrialResult),
      r ∈ musical_ear_test tt ex ts st pr tr pe te → r.start_time = clock_str st) ∧
    (∀ (tt : String) (ex ts : List String) (st : Nat) (pr tr : Nat → String)
        (pe te : Nat → Nat) (i : Nat), i < ex.length →
      (musical_ear_test tt ex ts st pr tr pe te)[i]?.map TrialResult.end_time =
        some (clock_str (pe i))) ∧
    (∀ (tt : String) (ex ts : List String) (st : Nat) (pr tr : Nat → String)
        (pe te : Nat → Nat) (i : Nat), i < ts.length →
      (musical_ear_test tt ex ts st pr tr pe te)[ex.length + i]?.map TrialResult.end_time =
        some (clock_str (te i))) := by
  refine ⟨?_, ?_, ?_⟩
  · intro tt ex ts st pr tr pe te r h
    exact (run_record_spec h).2.2
  · intro tt ex ts st pr tr pe te i hi
    rw [run_getElem?_practice tt ex ts st pr tr pe te i hi]
    rfl
  · intro tt ex ts st pr tr pe te i hi
    rw [run_getElem?_test tt ex ts st pr tr pe te i hi]
    rfl

/-- Witness for the amended C5 at the concrete run. -/
theorem c5_witness :
    (practice_trial_result "melody" 0 0 "audio/melody_example1_identical.wav" "yes"
        30).start_time = clock_str 0 ∧
      c5_run[0]?.map TrialResult.end_time = some (clock_str 30) ∧
      c5_run[1]?.map TrialResult.end_time = some (clock_str 90) :=
  ⟨c5_amended_timestamps.1 "melody" ["audio/melody_example1_identical.wav"]
      ["audio/melody_test01_different.wav"] 0 (fun _ => "yes") (fun _ => "no")
      (fun _ => 30) (fun _ => 90)
      (practice_trial_result "melody" 0 0 "audio/melody_example1_identical.wav" "yes" 30)
      (by decide),
    c5_amended_timestamps.2.1 "melody" ["audio/melody_example1_identical.wav"]
      ["audio/melody_test01_different.wav"] 0 (fun _ => "yes") (fun _ => "no")
      (fun _ => 30) (fun _ => 90) 0 (by decide),
    c5_amended_timestamps.2.2 "melody" ["audio/melody_example1_identical.wav"]
      ["audio/melody_test01_different.wav"] 0 (fun _ => "yes") (fun _ => "no")
      (fun _ => 30) (fun _ => 90) 0 (by decide)⟩

/-! ### Claim C6 -/

/-- Claim C6: one call of the result sink appends exactly one serialized
line to the destination selected by the phase of the outcome — the practice
destination for a practice-phase outcome and the test destination for every
other phase — leaving the existing content of that destination as a prefix
and every other file untouched. The with-block of the source (open in
append mode, one write, close on scope exit) is the single atomic
file-system update modelled here. -/
theorem c6_result_sink (result : TrialResult) (practice_filename test_filename : String)
    (participant_info : ParticipantInfo) (fs : String → List String) :
    (append_result_to_csv result practice_filename test_filename participant_info fs
        (if result.phase = "practice" then practice_filename else test_filename) =
      fs (if result.phase = "practice" then practice_filename else test_filename) ++
        [result_line participant_info result]) ∧
    (∀ f, f ≠ (if result.phase = "practice" then practice_filename else test_filename) →
      append_result_to_csv result practice_filename test_filename participant_info fs f =
        fs f) := by
  constructor
  · unfold append_result_to_csv
    simp
  · intro f hf
    unfold append_result_to_csv
    simp [hf]

/-- Witness for C6 at a concrete practice-phase record, destinations and
file-system state. -/
theorem c6_witness :
    (append_result_to_csv
        (practice_trial_result "melody" 0 0 "audio/melody_example1_identical.wav" "yes" 30)
        "results/practice.csv" "results/test.csv"
        { experiment := "musical_ear_test", subject_ID := "s1", cur_date := "2023-05-06" }
        (fun _ => ["header"])
        (if (practice_trial_result "melody" 0 0 "audio/melody_example1_identical.wav"
              "yes" 30).phase = "practice" then "results/practice.csv"
          else "results/test.csv") =
      (fun _ : String => ["header"])
          (if (practice_trial_result "melody" 0 0 "audio/melody_example1_identical.wav"
                "yes" 30).phase = "practice" then "results/practice.csv"
            else "results/test.csv") ++
        [result_line
          { experiment := "musical_ear_test", subject_ID := "s1", cur_date := "2023-05-06" }
          (practice_trial_result "melody" 0 0 "audio/melody_example1_identical.wav"
            "yes" 30)]) ∧
    append_result_to_csv
        (practice_trial_result "melody" 0 0 "audio/melody_example1_identical.wav" "yes" 30)
        "results/practice.csv" "results/test.csv"
        { experiment := "musical_ear_test", subject_ID := "s1", cur_date := "2023-05-06" }
        (fun _ => ["header"]) "results/test.csv" =
      ["header"] :=
  ⟨(c6_result_sink
      (practice_trial_result "melody" 0 0 "audio/melody_example1_identical.wav" "yes" 30)
      "results/practice.csv" "results/test.csv"
      { experiment := "musical_ear_test", subject_ID := "s1", cur_date := "2023-05-06" }
      (fun _ => ["header"])).1,
    (c6_result_sink
      (practice_trial_result "melody" 0 0 "audio/melody_example1_identical.wav" "yes" 30)
      "results/practice.csv" "results/test.csv"
      { experiment := "musical_ear_test", subject_ID := "s1", cur_date := "2023-05-06" }
      (fun _ => ["header"])).2 "results/test.csv" (by decide)⟩

/-! ### Claim C7 -/

/-- A concrete run for C7: a single scored trial on the item of scenario B,
with no key pressed before the window closes. -/
def c7_run : List TrialResult :=
  musical_ear_test "rhythm" [] ["audio/rhythm_test07_identical.wav"] 0
    (fun _ => "NA") (fun _ => "NA") (fun _ => 5) (fun _ => 5)

/-- Claim C7, counterexample: in the concrete run, the trial's response is
NA and its ground truth is yes, so the comparison response == ground_truth
is false; yet the field named correct on the record holds the ground-truth
string yes — the source stores correct_answer there (lines 384 and 432),
not the boolean comparison. The claim that correct is a boolean equal to
response == ground_truth (false for a no-response trial) is therefore
false. -/
theorem c7_counterexample :
    c7_run[0]?.map (fun r => (r.stimulus, r.response, r.correct)) =
        some ("audio/rhythm_test07_identical.wav", "NA", "yes") ∧
      decide ("NA" = correct_answer "audio/rhythm_test07_identical.wav") = false := by
  decide

/-- Claim C7 (amended): the field named correct on every trial record
stores the ground-truth answer string — yes or no, derived from the
stimulus identifier — not the boolean response == ground_truth; that
boolean is only computed transiently for practice feedback. -/
theorem c7_amended_correct_field (tt : String) (ex ts : List String) (st : Nat)
    (pr tr : Nat → String) (pe te : Nat → Nat) (r : TrialResult)
    (h : r ∈ musical_ear_test tt ex ts st pr tr pe te) :
    r.correct = correct_answer r.stimulus ∧ (r.correct = "yes" ∨ r.correct = "no") := by
  obtain ⟨hc, -, -⟩ := run_record_spec h
  exact ⟨hc, hc ▸ correct_answer_cases r.stimulus⟩

/-- Witness for the amended C7 at the concrete run of scenario B. -/
theorem c7_witness :
    (test_trial_result "rhythm" 0 0 "audio/rhythm_test07_identical.wav" "NA" 5).correct =
        correct_answer
          (test_trial_result "rhythm" 0 0 "audio/rhythm_test07_identical.wav" "NA"
            5).stimulus ∧
      ((test_trial_result "rhythm" 0 0 "audio/rhythm_test07_identical.wav" "NA"
            5).correct = "yes" ∨
        (test_trial_result "rhythm" 0 0 "audio/rhythm_test07_identical.wav" "NA"
            5).correct = "no") :=
  c7_amended_correct_field "rhythm" [] ["audio/rhythm_test07_identical.wav"] 0
    (fun _ => "NA") (fun _ => "NA") (fun _ => 5) (fun _ => 5)
    (test_trial_result "rhythm" 0 0 "audio/rhythm_test07_identical.wav" "NA" 5)
    (by decide)

/-! ### Claim C8 -/

/-- Claim C8: each run of musical_ear_test takes exactly one clock start
instant st, captured at sub-test start, and every record of the run carries
start_time rendered from that one instant; the duration of the trial at
each position of the run is that trial's own end instant minus st; the
rendering is zero-padded HH:MM:SS on whole seconds; and the hour field has
no upper bound, as with 100 hours. The second sub-test of a session is a
separate call with its own st argument, so its elapsed column depends only
on its own start, independent of the first sub-test. -/
theorem c8_trial_clock :
    (∀ (tt : String) (ex ts : List String) (st : Nat) (pr tr : Nat → String)
        (pe te : Nat → Nat) (r : TrialResult),
      r ∈ musical_ear_test tt ex ts st pr tr pe te → r.start_time = clock_str st) ∧
    (∀ (tt : String) (ex ts : List String) (st : Nat) (pr tr : Nat → String)
        (pe te : Nat → Nat) (i : Nat), i < ex.length →
      (musical_ear_test tt ex ts st pr tr pe te)[i]?.map TrialResult.duration =
        some (duration_str (pe i - st))) ∧
    (∀ (tt : String) (ex ts : List String) (st : Nat) (pr tr : Nat → String)
        (pe te : Nat → Nat) (i : Nat), i < ts.length →
      (musical_ear_test tt ex ts st pr tr pe te)[ex.length + i]?.map TrialResult.duration =
        some (duration_str (te i - st))) ∧
    (∀ h m s : Nat, m < 60 → s < 60 →
      duration_str (h * 3600 + m * 60 + s) = pad2 h ++ ":" ++ pad2 m ++ ":" ++ pad2 s) ∧
    duration_str 360000 = "100:00:00" := by
  refine ⟨?_, ?_, ?_, ?_, by decide⟩
  · intro tt ex ts st pr tr pe te r h
    exact (run_record_spec h).2.2
  · intro tt ex ts st pr tr pe te i hi
    rw [run_getElem?_practice tt ex ts st pr tr pe te i hi]
    rfl
  · intro tt ex ts st pr tr pe te i hi
    rw [run_getElem?_test tt ex ts st pr tr pe te i hi]
    rfl
  · intro h m s hm hs
    have e1 : (h * 3600 + m * 60 + s) / 3600 = h := by omega
    have e2 : (h * 3600 + m * 60 + s) % 3600 / 60 = m := by omega
    have e3 : (h * 3600 + m * 60 + s) % 3600 % 60 = s := by omega
    unfold duration_str
    rw [e1, e2, e3]

/-- Witness for C8: a second sub-test starting at second 1000 whose single
scored trial ends at second 1005 has elapsed 00:00:05, regardless of any
earlier sub-test (whose own elapsed column could have reached 00:07:42). -/
theorem c8_witness :
    (test_trial_result "rhythm" 1000 0 "audio/rhythm_test01_identical.wav" "yes"
        1005).start_time = clock_str 1000 ∧
      (musical_ear_test "rhythm" [] ["audio/rhythm_test01_identical.wav"] 1000
          (fun _ => "yes") (fun _ => "yes") (fun _ => 1005)
          (fun _ => 1005))[0]?.map TrialResult.duration =
        some (duration_str (1005 - 1000)) ∧
      duration_str (0 * 3600 + 7 * 60 + 42) = pad2 0 ++ ":" ++ pad2 7 ++ ":" ++ pad2 42 :=
  ⟨c8_trial_clock.1 "rhythm" [] ["audio/rhythm_test01_identical.wav"] 1000
      (fun _ => "yes") (fun _ => "yes") (fun _ => 1005) (fun _ => 1005)
      (test_trial_result "rhythm" 1000 0 "audio/rhythm_test01_identical.wav" "yes" 1005)
      (by decide),
    c8_trial_clock.2.2.1 "rhythm" [] ["audio/rhythm_test01_identical.wav"] 1000
      (fun _ => "yes") (fun _ => "yes") (fun _ => 1005) (fun _ => 1005) 0 (by decide),
    c8_trial_clock.2.2.2.1 0 7 42 (by decide) (by decide)⟩

/-! ### Claim C9 -/

/-- Claim C9: the per-item practice debrief instruction key is the test
type joined with the ground truth of the just-answered item; the key
sequence of a run is identical for any two response environments — the
participant's answers never influence which debrief instruction is shown —
and each debrief key is the practice key of the item's ground truth, in
catalog order, framed by the part1 and part2 instructions. -/
theorem c9_debrief_keys (test_type : String) (example_files : List String)
    (resp resp2 : Nat → String) :
    instruct_keys (musical_ear_test_display test_type example_files resp) =
        instruct_keys (musical_ear_test_display test_type example_files resp2) ∧
      instruct_keys (musical_ear_test_display test_type example_files resp) =
        (test_type ++ "_part1") ::
          (example_files.map (fun f => test_type ++ "_practice_" ++ correct_answer f) ++
            [test_type ++ "_part2"]) := by
  have key : ∀ r : Nat → String,
      instruct_keys (musical_ear_test_display test_type example_files r) =
        (test_type ++ "_part1") ::
          (example_files.map (fun f => test_type ++ "_practice_" ++ correct_answer f) ++
            [test_type ++ "_part2"]) := by
    intro r
    unfold musical_ear_test_display
    simp [instruct_keys, instruct_keys_append, instruct_keys_practice_display]
  exact ⟨(key resp).trans (key resp2).symm, key resp⟩

/-! ### Claim C10 -/

/-- Claim C10: a run over example_files and test_files returns exactly
length of example_files plus length of test_files records; the record at
each position i of the practice block has phase practice, 1-based trial
number i + 1 and the i-th example file as stimulus, and the record at each
position i of the following scored block has phase test, trial number
i + 1 and the i-th test file as stimulus. -/
theorem c10_result_shape (tt : String) (ex ts : List String) (st : Nat)
    (pr tr : Nat → String) (pe te : Nat → Nat) :
    (musical_ear_test tt ex ts st pr tr pe te).length = ex.length + ts.length ∧
      (∀ (i : Nat) (hi : i < ex.length),
        (musical_ear_test tt ex ts st pr tr pe te)[i]?.map
            (fun r => (r.phase, r.trial, r.stimulus)) =
          some ("practice", i + 1, ex[i])) ∧
      (∀ (i : Nat) (hi : i < ts.length),
        (musical_ear_test tt ex ts st pr tr pe te)[ex.length + i]?.map
            (fun r => (r.phase, r.trial, r.stimulus)) =
          some ("test", i + 1, ts[i])) := by
  refine ⟨?_, ?_, ?_⟩
  · unfold musical_ear_test
    rw [List.length_append, map_with_index_length, map_with_index_length]
  · intro i hi
    rw [run_getElem?_practice tt ex ts st pr tr pe te i hi]
    rfl
  · intro i hi
    rw [run_getElem?_test tt ex ts st pr tr pe te i hi]
    rfl

/-- Witness for C10 at a concrete two-practice, one-test run. -/
theorem c10_witness :
    (musical_ear_test "melody"
        ["audio/melody_example1_identical.wav", "audio/melody_example2_different.wav"]
        ["audio/melody_test01_identical.wav"] 0 (fun _ => "yes") (fun _ => "no")
        (fun _ => 10) (fun _ => 20)).length = 3 ∧
      (musical_ear_test "melody"
          ["audio/melody_example1_identical.wav", "audio/melody_example2_different.wav"]
          ["audio/melody_test01_identical.wav"] 0 (fun _ => "yes") (fun _ => "no")
          (fun _ => 10) (fun _ => 20))[1]?.map
          (fun r => (r.phase, r.trial, r.stimulus)) =
        some ("practice", 2, "audio/melody_example2_different.wav") ∧
      (musical_ear_test "melody"
          ["audio/melody_example1_identical.wav", "audio/melody_example2_different.wav"]
          ["audio/melody_test01_identical.wav"] 0 (fun _ => "yes") (fun _ => "no")
          (fun _ => 10) (fun _ => 20))[2]?.map
          (fun r => (r.phase, r.trial, r.stimulus)) =
        some ("test", 1, "audio/melody_test01_identical.wav") :=
  ⟨(c10_result_shape "melody"
      ["audio/melody_example1_identical.wav", "audio/melody_example2_different.wav"]
      ["audio/melody_test01_identical.wav"] 0 (fun _ => "yes") (fun _ => "no")
      (fun _ => 10) (fun _ => 20)).1,
    (c10_result_shape "melody"
      ["audio/melody_example1_identical.wav", "audio/melody_example2_different.wav"]
      ["audio/melody_test01_identical.wav"] 0 (fun _ => "yes") (fun _ => "no")
      (fun _ => 10) (fun _ => 20)).2.1 1 (by decide),
    (c10_result_shape "melody"
      ["audio/melody_example1_identical.wav", "audio/melody_example2_different.wav"]
      ["audio/melody_test01_identical.wav"] 0 (fun _ => "yes") (fun _ => "no")
      (fun _ => 10) (fun _ => 20)).2.2 0 (by decide)⟩

end MusicalEar
